import Mathlib

/-!
Verification development for the operator-facing tasks of `hardhat.config.ts`
(beefy-contracts): the `node` fork resolver, the `panic`/`unpause`/`harvest`
operation executors, the `transfer` ownership workflow, the
`generate_accounts` credential generator and the deployer-credential loader.

Each task is shallowly embedded as a pure function over an explicit model of
its effects: a small file-system state for the credential code, and oracle
environments for the network / contract calls.  Console output is modelled as
an explicit log list.
-/

set_option autoImplicit false

namespace BeefyHardhat

/-- Error codes raised by the Node.js `fs` primitives, as the tasks observe
them (`e.code === 'EEXIST'` / `'ENOENT'`); every other failure is kept with
its message. -/
inductive FsError
  | EEXIST
  | ENOENT
  | other (msg : String)
deriving DecidableEq, Repr

/-- A console line: `out` for `console.log`, `err` for `console.error e`. -/
inductive LogLine
  | out (s : String)
  | err (e : FsError)
deriving DecidableEq, Repr

/-- Model of the local file system as the credential code uses it:
directories, files with contents, open handles (handle id paired with the
path it refers to), plus queues of injected faults so that unexpected I/O
failures of `mkdirSync` / `openSync` / `writeFileSync` / `readFileSync` are
representable. -/
structure FS where
  dirs : List String
  files : List (String × String)
  handles : List (Nat × String)
  nextHandle : Nat
  mkdirFaults : List String
  openFaults : List String
  writeFaults : List String
  readFaults : List String
deriving DecidableEq, Repr

/-- Parent directory of a path (everything before the last `/`; `""` for a
bare name, meaning the current directory). -/
def parentDir (p : String) : String :=
  String.mk ((p.data.reverse.dropWhile (fun c => c ≠ '/')).drop 1).reverse

/-- `fs.mkdirSync(d)`: fails with `EEXIST` when the directory exists, or with
an injected fault; otherwise creates the directory. -/
def FS.mkdirSync (fs : FS) (d : String) : Except FsError Unit × FS :=
  match fs.mkdirFaults with
  | m :: rest => (.error (.other m), { fs with mkdirFaults := rest })
  | [] =>
    if fs.dirs.contains d then (.error .EEXIST, fs)
    else (.ok (), { fs with dirs := d :: fs.dirs })

/-- `fs.openSync(p, 'wx+', 0o600)`: exclusive create.  Fails with `EEXIST`
when the file exists, `ENOENT` when the parent directory is missing, or with
an injected fault; otherwise creates an empty file and returns a fresh open
handle. -/
def FS.openSyncWx (fs : FS) (p : String) : Except FsError Nat × FS :=
  match fs.openFaults with
  | m :: rest => (.error (.other m), { fs with openFaults := rest })
  | [] =>
    if (fs.files.lookup p).isSome then (.error .EEXIST, fs)
    else if parentDir p = "" ∨ fs.dirs.contains (parentDir p) then
      (.ok fs.nextHandle,
        { fs with
          files := (p, "") :: fs.files
          handles := (fs.nextHandle, p) :: fs.handles
          nextHandle := fs.nextHandle + 1 })
    else (.error .ENOENT, fs)

/-- Replace the contents of path `p` in a file table. -/
def setFile (files : List (String × String)) (p v : String) :
    List (String × String) :=
  files.map (fun kv => if kv.1 = p then (p, v) else kv)

/-- `fs.writeFileSync(fd, data)`: writes through an open handle; fails on an
injected fault or a stale handle. -/
def FS.writeFileSync (fs : FS) (h : Nat) (data : String) :
    Except FsError Unit × FS :=
  match fs.writeFaults with
  | m :: rest => (.error (.other m), { fs with writeFaults := rest })
  | [] =>
    match fs.handles.lookup h with
    | some p => (.ok (), { fs with files := setFile fs.files p data })
    | none => (.error (.other "EBADF"), fs)

/-- `fs.closeSync(fd)`: releases an open handle. -/
def FS.closeSync (fs : FS) (h : Nat) : FS :=
  { fs with handles := fs.handles.filter (fun kv => kv.1 ≠ h) }

/-- `fs.readFileSync(p).toString()`: fails with an injected fault or with
`ENOENT` when the file is missing. -/
def FS.readFileSync (fs : FS) (p : String) : Except FsError String × FS :=
  match fs.readFaults with
  | m :: rest => (.error (.other m), { fs with readFaults := rest })
  | [] =>
    match fs.files.lookup p with
    | some v => (.ok v, fs)
    | none => (.error .ENOENT, fs)

/-- Well-formedness of the handle table: every open handle id is below the
allocator counter (true of every state reachable from a fresh file system). -/
def FS.wfb (fs : FS) : Bool :=
  fs.handles.all (fun kv => kv.1 < fs.nextHandle)

def DEPLOYER_PK_FILE : String := ".config/DEPLOYER_PK"
def OTHER_PK_FILE : String := ".config/OTHER_PK"

/-- A freshly generated wallet (`hre.ethers.Wallet.createRandom()`): an
address and the private-key material written to disk. -/
structure Account where
  address : String
  privateKey : String
deriving DecidableEq, Repr

/-- The running state of the `generate_accounts` task: the file system, the
console log, and the task's `file` local variable (an open handle or
null/undefined). -/
structure GenState where
  fs : FS
  log : List LogLine
  file : Option Nat
deriving DecidableEq, Repr

/-- Append a `console.log` line. -/
def GenState.logOut (st : GenState) (s : String) : GenState :=
  { st with log := st.log ++ [.out s] }

/-- Append a `console.error e` line. -/
def GenState.logErr (st : GenState) (e : FsError) : GenState :=
  { st with log := st.log ++ [.err e] }

/-- The `catch` clause of a role block: `EEXIST` is reported as a friendly
"already exists" message via `console.log`; anything else goes to
`console.error`. -/
def catchRole (existsMsg : String) (e : FsError) (st : GenState) : GenState :=
  if e = .EEXIST then st.logOut existsMsg else st.logErr e

/-- The `finally` clause of a role block: close the handle held in `file`
when there is one, then null the variable. -/
def finallyRole (st : GenState) : GenState :=
  match st.file with
  | some h => { st with fs := st.fs.closeSync h, file := none }
  | none => st

/-- One role's creation attempt inside `generate_accounts`:
`try { file = openSync(pk, 'wx+'); account = createRandom(); writeFileSync(file, pk); log address } catch { ... } finally { close }`. -/
def roleBlock (pkFile existsMsg okMsg : String) (acct : Account)
    (st : GenState) : GenState :=
  finallyRole <|
    match st.fs.openSyncWx pkFile with
    | (.error e, fs1) => catchRole existsMsg e { st with fs := fs1 }
    | (.ok h, fs1) =>
      let st1 : GenState := { st with fs := fs1, file := some h }
      match st1.fs.writeFileSync h acct.privateKey with
      | (.error e, fs2) => catchRole existsMsg e { st1 with fs := fs2 }
      | (.ok _, fs2) => GenState.logOut { st1 with fs := fs2 } (okMsg ++ acct.address)

/-- `try { fs.mkdirSync(".config") } catch (e) { }`: whatever the outcome,
the resulting state is kept and the error (if any) is discarded, with no
console output. -/
def mkdirQuiet (fs : FS) : FS :=
  match fs.mkdirSync ".config" with
  | (.ok _, fs1) => fs1
  | (.error _, fs1) => fs1

/-- The `generate_accounts` task: best-effort `mkdirSync(".config")` with an
empty catch clause, then the deployer role block followed by the other role
block.  The two freshly generated wallets are inputs (the randomness
source is external). -/
def generate_accounts (acct1 acct2 : Account) (fs0 : FS) : GenState :=
  let st1 : GenState := { fs := mkdirQuiet fs0, log := [], file := none }
  let st2 := roleBlock DEPLOYER_PK_FILE "Deployer key exists. Not overwriting"
    "Deployer account: " acct1 st1
  roleBlock OTHER_PK_FILE "Other key exists. Not overwriting"
    "Other account  : " acct2 st2

/-- The actionable message printed when the deployer credential is missing. -/
def missingDeployerMsg : String :=
  "Deployer account not found. Create .config/DEPLOYER_PK or run `hardhat generate_accounts`."

/-- The module-level deployer-credential loader: `process.env.DEPLOYER_PK`
takes precedence when truthy (non-empty); otherwise the persisted file is
read, with `ENOENT` reported via the actionable message and any other read
failure via `console.error`.  Returns the `deployerAccount` value (an
account list, or `none` when it stays undefined) and the console log. -/
def loadDeployerAccount (envPk : Option String) (fs : FS) :
    Option (List String) × List LogLine :=
  let fromFile : Option (List String) × List LogLine :=
    match (fs.readFileSync DEPLOYER_PK_FILE).1 with
    | .ok s => (some [s], [])
    | .error .ENOENT => (none, [.out missingDeployerMsg])
    | .error e => (none, [.err e])
  match envPk with
  | some pk => if pk = "" then fromFile else (some [pk], [])
  | none => fromFile

/-- Connection parameters of a configured network profile: RPC endpoint URL
(absent for the in-process hardhat network) and optional chain identifier. -/
structure NetworkCfg where
  url : Option String
  chainId : Option Nat
deriving DecidableEq, Repr

/-- The arguments of the `node` task that the fork-resolution override
touches: the fork-source value (a network name before resolution, an RPC URL
after; absent when not forking), and the `noReset` / `write` flags. -/
structure NodeArgs where
  fork : Option String
  noReset : Bool
  write : Bool
deriving DecidableEq, Repr

/-- Set the `chainId` of the named profile in a network table. -/
def setChainId (nets : List (String × NetworkCfg)) (name : String)
    (cid : Nat) : List (String × NetworkCfg) :=
  nets.map (fun kv => if kv.1 = name then (kv.1, { kv.2 with chainId := some cid }) else kv)

/-- Result of running the `node` task override: the (possibly rewritten)
task arguments, the (possibly rewritten) network table, the
`HARDHAT_DEPLOY_FORK` environment variable, and the console log. -/
structure NodeResult where
  args : NodeArgs
  nets : List (String × NetworkCfg)
  deployForkEnv : Option String
  log : List String
deriving DecidableEq, Repr

/-- The `node` task override (`hardhat.config.ts` lines 21-37): when
`taskArgs.fork` names a configured network, set `HARDHAT_DEPLOY_FORK`, force
`noReset := true` and `write := false`, substitute the profile's RPC URL as
the fork source, and copy its chain identifier (when declared) onto the
`hardhat` and `localhost` profiles; otherwise change nothing. -/
def nodeTask (args : NodeArgs) (nets : List (String × NetworkCfg))
    (env0 : Option String) : NodeResult :=
  match args.fork with
  | none => { args := args, nets := nets, deployForkEnv := env0, log := [] }
  | some f =>
    match nets.lookup f with
    | none => { args := args, nets := nets, deployForkEnv := env0, log := [] }
    | some cfg =>
      let rpcText := cfg.url.getD "undefined"
      { args := { fork := cfg.url, noReset := true, write := false }
        nets :=
          match cfg.chainId with
          | some cid => setChainId (setChainId nets "hardhat" cid) "localhost" cid
          | none => nets
        deployForkEnv := some f
        log := ["Forking " ++ f ++ " from RPC: " ++ rpcText] }

/-- The static network table of the configuration (lines 189-230), keeping
the fields the `node` task reads. -/
def configNetworks : List (String × NetworkCfg) :=
  [("hardhat", { url := none, chainId := none }),
   ("bsc", { url := some "https://bsc-dataseed.binance.org/", chainId := some 56 }),
   ("heco", { url := some "https://http-mainnet.hecochain.com", chainId := some 128 }),
   ("avax", { url := some "https://api.avax.network/ext/bc/C/rpc", chainId := some 43114 }),
   ("polygon", { url := some "https://speedy-nodes-nyc.moralis.io/64b5b48009c1b462c3173a1c/polygon/mainnet", chainId := some 137 }),
   ("fantom", { url := some "https://rpc.ftm.tools", chainId := some 250 }),
   ("localhost", { url := some "http://127.0.0.1:8545", chainId := none }),
   ("testnet", { url := some "https://data-seed-prebsc-1-s1.binance.org:8545/", chainId := some 97 })]

/-- A submitted transaction as the tasks see it: its hash. -/
structure Tx where
  hash : String
deriving DecidableEq, Repr

/-- Oracle environment for one run of `panic` / `unpause` / `harvest`: the
active network name (carried by `hre`, unused by the task bodies), and the
outcomes of `getContractAt`, of the submission call, and of `tx.wait()`. -/
structure OpEnv where
  network : String
  getContract : Except String Unit
  submit : Except String Tx
  wait : Except String Unit

/-- A console line of an operation executor run: the success report with its
explorer URL, or the failure report with the underlying error text. -/
inductive OpLine
  | success (url : String)
  | failure (err : String)
deriving DecidableEq, Repr

/-- The hard-coded explorer URL built for a transaction hash (lines 46, 61,
76): always the BSC explorer, whatever the active network. -/
def txUrl (h : String) : String := "https://bscscan.com/tx/" ++ h

/-- The shared shape of `panic` / `unpause` / `harvest`: resolve the
contract handle outside any try block, then inside the try submit the call,
build the explorer URL, await confirmation and log success; any failure
inside the try is caught and logged.  Returns `.error` exactly when an
unhandled rejection escapes the task, together with the log. -/
def opTask (env : OpEnv) : Except String Unit × List OpLine :=
  match env.getContract with
  | .error e => (.error e, [])
  | .ok _ =>
    match env.submit with
    | .error e => (.ok (), [.failure e])
    | .ok tx =>
      match env.wait with
      | .error e => (.ok (), [.failure e])
      | .ok _ => (.ok (), [.success (txUrl tx.hash)])

/-- Rendering of `panic`'s log lines to the exact console text. -/
def panicLine : OpLine → String
  | .success url => "Successful panic with tx at " ++ url
  | .failure e => "Couldn't panic due to " ++ e

/-- Rendering of `unpause`'s log lines to the exact console text. -/
def unpauseLine : OpLine → String
  | .success url => "Successful unpaused with tx at " ++ url
  | .failure e => "Couldn't unpause due to " ++ e

/-- Rendering of `harvest`'s log lines to the exact console text. -/
def harvestLine : OpLine → String
  | .success url => "Successful harvest with tx at " ++ url
  | .failure e => "Couldn't harvest due to " ++ e

/-- The `panic` task (lines 39-52). -/
def panicTask (env : OpEnv) : Except String Unit × List String :=
  ((opTask env).1, (opTask env).2.map panicLine)

/-- The `unpause` task (lines 54-67). -/
def unpauseTask (env : OpEnv) : Except String Unit × List String :=
  ((opTask env).1, (opTask env).2.map unpauseLine)

/-- The `harvest` task (lines 69-82). -/
def harvestTask (env : OpEnv) : Except String Unit × List String :=
  ((opTask env).1, (opTask env).2.map harvestLine)

/-- Oracle environment for one run of the `transfer` task: the named
accounts, the deployment registry (logical name to address), and the
outcomes of each `transferOwnership` submission (keyed by contract address,
new owner and signer) and of each `tx.wait()` (keyed by hash). -/
structure TransferEnv where
  deployer : String
  vaultOwner : String
  stratOwner : String
  deployments : List (String × String)
  submit : String → String → String → Except String Tx
  wait : String → Except String Unit

/-- Observable events of a `transfer` run: a resolution attempt against the
deployment registry, a stdout write, and a submitted ownership-transfer
transaction (contract address, new owner, signer, hash). -/
inductive TEvent
  | resolve (name : String)
  | outWrite (s : String)
  | submitTx (addr newOwner signer hash : String)
deriving DecidableEq, Repr

/-- One block of the `transfer` task body: resolve the deployment, write the
"Transfering ownership" line, submit `transferOwnership(newOwner)` with the
signer, write the transaction hash, await confirmation.  There is no
try/catch: the first failing await rejects the whole task. -/
def transferStep (env : TransferEnv) (name newOwner signer : String)
    (log : List TEvent) : Except String Unit × List TEvent :=
  let log1 := log ++ [.resolve name]
  match env.deployments.lookup name with
  | none => (.error ("No deployment found for: " ++ name), log1)
  | some addr =>
    let log2 := log1 ++
      [.outWrite ("Transfering ownership of \"" ++ name ++ "\" at \"" ++ addr
        ++ "\" to \"" ++ newOwner ++ "\"")]
    match env.submit addr newOwner signer with
    | .error e => (.error e, log2)
    | .ok tx =>
      let log3 := log2 ++ [.submitTx addr newOwner signer tx.hash,
        .outWrite (" (tx: " ++ tx.hash ++ ")\n")]
      match env.wait tx.hash with
      | .error e => (.error e, log3)
      | .ok _ => (.ok (), log3)

/-- The `transfer` task (lines 84-115): vault block for `vault ++ "-vault"`
towards `vaultOwner`, then strategy block for `vault ++ "-strat"` towards
`stratOwner`, both signed by the deployer, then `console.log("done")`.
`.error` means an unhandled rejection escaped the task. -/
def transferTask (env : TransferEnv) (vault : String) :
    Except String Unit × List TEvent :=
  let signer := env.deployer
  match transferStep env (vault ++ "-vault") env.vaultOwner signer [] with
  | (.error e, log) => (.error e, log)
  | (.ok _, log1) =>
    match transferStep env (vault ++ "-strat") env.stratOwner signer log1 with
    | (.error e, log) => (.error e, log)
    | (.ok _, log2) => (.ok (), log2 ++ [.outWrite "done"])

/-! ### Concrete fixtures for witnesses and counterexamples -/

/-- A fresh file system: nothing on disk, no open handles, no faults. -/
def emptyFS : FS :=
  { dirs := [], files := [], handles := [], nextHandle := 0,
    mkdirFaults := [], openFaults := [], writeFaults := [], readFaults := [] }

def accA : Account := { address := "0xAdrA", privateKey := "0xkeyA" }

def accB : Account := { address := "0xAdrB", privateKey := "0xkeyB" }

/-- A file system on which both credential files already exist. -/
def fsBoth : FS :=
  { emptyFS with
      dirs := [".config"]
      files := [(DEPLOYER_PK_FILE, "0xkey1"), (OTHER_PK_FILE, "0xkey2")] }

/-- A fresh file system on which `mkdirSync(".config")` will fail with a
permission error rather than `EEXIST`. -/
def fsMkdirDenied : FS :=
  { emptyFS with mkdirFaults := ["EACCES: permission denied, mkdir .config"] }

/-- A `panic`-style run whose submission reverts on-chain. -/
def opEnvRevert : OpEnv :=
  { network := "bsc", getContract := .ok (),
    submit := .error "execution reverted: Pausable: paused", wait := .ok () }

/-- A successful operation run against a non-BSC network. -/
def opEnvPolygonOk : OpEnv :=
  { network := "polygon", getContract := .ok (),
    submit := .ok { hash := "0xabc" }, wait := .ok () }

/-- A transfer environment in which every step succeeds. -/
def envTransferOk : TransferEnv :=
  { deployer := "0xD", vaultOwner := "0xVO", stratOwner := "0xSO",
    deployments := [("moo-vault", "0xV"), ("moo-strat", "0xS")],
    submit := fun addr _ _ => .ok { hash := "0xtx" ++ addr },
    wait := fun _ => .ok () }

/-- A transfer environment with an empty deployment registry, so the vault
name fails to resolve. -/
def envNoVault : TransferEnv :=
  { deployer := "0xD", vaultOwner := "0xVO", stratOwner := "0xSO",
    deployments := [],
    submit := fun _ _ _ => .ok { hash := "0xbeef" }, wait := fun _ => .ok () }

/-- A transfer environment in which every submission is rejected. -/
def envSubmitFail : TransferEnv :=
  { deployer := "0xD", vaultOwner := "0xVO", stratOwner := "0xSO",
    deployments := [("foo-vault", "0xV"), ("foo-strat", "0xS")],
    submit := fun _ _ _ => .error "insufficient funds for gas",
    wait := fun _ => .ok () }

/-! ### Helper lemmas -/

theorem data_append (v w : String) : (v ++ w).data = v.data ++ w.data := rfl

theorem vault_ne_strat (v : String) : v ++ "-vault" ≠ v ++ "-strat" := by
  intro h
  have h2 := congrArg String.data h
  rw [data_append, data_append] at h2
  have h3 := List.append_cancel_left h2
  simp at h3

theorem transferStep_resolve_mem (env : TransferEnv)
    (name newOwner signer : String) (log : List TEvent) (n : String) :
    TEvent.resolve n ∈ (transferStep env name newOwner signer log).2 ↔
      TEvent.resolve n ∈ log ∨ n = name := by
  simp only [transferStep]
  rcases hd : env.deployments.lookup name with _ | addr
  · simp [hd]
  · rcases hs : env.submit addr newOwner signer with e | tx
    · simp [hd, hs]
    · rcases hw : env.wait tx.hash with e | u
      · simp [hd, hs, hw]
      · simp [hd, hs, hw]

theorem mkdirQuiet_spec (fs : FS) :
    (mkdirQuiet fs).files = fs.files ∧ (mkdirQuiet fs).handles = fs.handles ∧
    (mkdirQuiet fs).nextHandle = fs.nextHandle ∧
    (mkdirQuiet fs).openFaults = fs.openFaults ∧
    (mkdirQuiet fs).writeFaults = fs.writeFaults := by
  unfold mkdirQuiet FS.mkdirSync
  rcases h : fs.mkdirFaults with _ | ⟨m, rest⟩
  · by_cases hc : ".config" ∈ fs.dirs
    · simp [h, hc]
    · simp [h, hc]
  · simp [h]

theorem roleBlock_exists (pkFile existsMsg okMsg : String) (acct : Account)
    (fs : FS) (log : List LogLine) (hof : fs.openFaults = [])
    (hx : (fs.files.lookup pkFile).isSome = true) :
    roleBlock pkFile existsMsg okMsg acct { fs := fs, log := log, file := none } =
      { fs := fs, log := log ++ [.out existsMsg], file := none } := by
  unfold roleBlock FS.openSyncWx
  simp [hof, hx, catchRole, finallyRole, GenState.logOut]

theorem filter_handles (l : List (Nat × String)) (n : Nat)
    (h : l.all (fun kv => kv.1 < n) = true) :
    l.filter (fun kv => kv.1 ≠ n) = l := by
  induction l with
  | nil => rfl
  | cons a t ih =>
    simp only [List.all_cons, Bool.and_eq_true, decide_eq_true_eq] at h
    rw [List.filter_cons, ih h.2]
    simp [Nat.ne_of_lt h.1]

theorem all_lt_succ (l : List (Nat × String)) (n : Nat)
    (h : l.all (fun kv => kv.1 < n) = true) :
    l.all (fun kv => kv.1 < n + 1) = true := by
  simp only [List.all_eq_true, decide_eq_true_eq] at h ⊢
  exact fun kv hkv => Nat.lt_succ_of_lt (h kv hkv)

theorem openSyncWx_err (fs : FS) (p : String) (e : FsError) (fs1 : FS)
    (h : fs.openSyncWx p = (.error e, fs1)) :
    fs1.handles = fs.handles ∧ fs1.nextHandle = fs.nextHandle := by
  unfold FS.openSyncWx at h
  rcases ho : fs.openFaults with _ | ⟨m, rest⟩ <;> rw [ho] at h
  · by_cases hx : (fs.files.lookup p).isSome = true
    · rw [if_pos hx] at h
      simp only [Prod.mk.injEq] at h
      rw [← h.2]
      exact ⟨rfl, rfl⟩
    · rw [if_neg hx] at h
      by_cases hpd : parentDir p = "" ∨ fs.dirs.contains (parentDir p)
      · rw [if_pos hpd] at h
        simp at h
      · rw [if_neg hpd] at h
        simp only [Prod.mk.injEq] at h
        rw [← h.2]
        exact ⟨rfl, rfl⟩
  · simp only [Prod.mk.injEq] at h
    rw [← h.2]
    exact ⟨rfl, rfl⟩

theorem openSyncWx_ok (fs : FS) (p : String) (n : Nat) (fs1 : FS)
    (h : fs.openSyncWx p = (.ok n, fs1)) :
    n = fs.nextHandle ∧ fs1.handles = (fs.nextHandle, p) :: fs.handles ∧
    fs1.nextHandle = fs.nextHandle + 1 := by
  unfold FS.openSyncWx at h
  rcases ho : fs.openFaults with _ | ⟨m, rest⟩ <;> rw [ho] at h
  · by_cases hx : (fs.files.lookup p).isSome = true
    · rw [if_pos hx] at h
      simp at h
    · rw [if_neg hx] at h
      by_cases hpd : parentDir p = "" ∨ fs.dirs.contains (parentDir p)
      · rw [if_pos hpd] at h
        simp only [Prod.mk.injEq, Except.ok.injEq] at h
        rw [← h.2, h.1]
        exact ⟨rfl, rfl, rfl⟩
      · rw [if_neg hpd] at h
        simp at h
  · simp at h

theorem writeFileSync_pres (fs : FS) (n : Nat) (data : String)
    (res : Except FsError Unit) (fs2 : FS)
    (h : fs.writeFileSync n data = (res, fs2)) :
    fs2.handles = fs.handles ∧ fs2.nextHandle = fs.nextHandle := by
  unfold FS.writeFileSync at h
  rcases hw : fs.writeFaults with _ | ⟨w, wrest⟩ <;> rw [hw] at h
  · rcases hl : fs.handles.lookup n with _ | p <;> rw [hl] at h <;>
      simp only [Prod.mk.injEq] at h <;> rw [← h.2] <;> exact ⟨rfl, rfl⟩
  · simp only [Prod.mk.injEq] at h
    rw [← h.2]
    exact ⟨rfl, rfl⟩

theorem filter_handles_cons (l : List (Nat × String)) (n : Nat) (p : String)
    (h : l.all (fun kv => kv.1 < n) = true) :
    ((n, p) :: l).filter (fun kv => kv.1 ≠ n) = l := by
  rw [List.filter_cons, filter_handles l n h]
  simp

theorem roleBlock_handles (pkFile existsMsg okMsg : String) (acct : Account)
    (st : GenState) (hf : st.file = none) (hwf : st.fs.wfb = true) :
    (roleBlock pkFile existsMsg okMsg acct st).fs.handles = st.fs.handles ∧
    (roleBlock pkFile existsMsg okMsg acct st).file = none ∧
    (roleBlock pkFile existsMsg okMsg acct st).fs.wfb = true := by
  have hwfall : st.fs.handles.all
      (fun kv => kv.1 < st.fs.nextHandle) = true := hwf
  unfold roleBlock
  rcases hop : st.fs.openSyncWx pkFile with ⟨res, fs1⟩
  cases res with
  | error e =>
    obtain ⟨hh, hn⟩ := openSyncWx_err st.fs pkFile e fs1 hop
    have hw1 : fs1.wfb = true := by
      unfold FS.wfb
      rw [hh, hn]
      exact hwfall
    unfold catchRole
    by_cases he : e = FsError.EEXIST
    · simp [he, finallyRole, hf, GenState.logOut, hh, hw1]
    · simp [he, finallyRole, hf, GenState.logErr, hh, hw1]
  | ok n =>
    obtain ⟨hneq, hh, hn⟩ := openSyncWx_ok st.fs pkFile n fs1 hop
    rcases hwr : fs1.writeFileSync n acct.privateKey with ⟨wres, fs2⟩
    obtain ⟨hh2, hn2⟩ := writeFileSync_pres fs1 n acct.privateKey wres fs2 hwr
    have hcl : (fs2.closeSync n).handles = st.fs.handles := by
      show fs2.handles.filter (fun kv => kv.1 ≠ n) = st.fs.handles
      rw [hh2, hh, hneq]
      exact filter_handles_cons st.fs.handles st.fs.nextHandle pkFile hwfall
    have hclw : (fs2.closeSync n).wfb = true := by
      show ((fs2.closeSync n).handles.all
        (fun kv => kv.1 < (fs2.closeSync n).nextHandle)) = true
      rw [hcl]
      show st.fs.handles.all (fun kv => kv.1 < fs2.nextHandle) = true
      rw [hn2, hn]
      exact all_lt_succ st.fs.handles st.fs.nextHandle hwfall
    cases wres with
    | error e =>
      by_cases he : e = FsError.EEXIST <;>
        simp [hwr, he, catchRole, finallyRole, GenState.logOut,
          GenState.logErr, hcl, hclw]
    | ok u =>
      simp [hwr, finallyRole, GenState.logOut, hcl, hclw]

/-! ### Claims about `generate_accounts` -/

/-- C3: credential generation is idempotent per role — when both key files
already exist, `generate_accounts` reports "key exists" for each role via
`console.log` (not `console.error`), and the file table is unchanged: no
pre-existing secret is overwritten. -/
theorem generate_accounts_idempotent (a1 a2 : Account) (fs0 : FS)
    (v1 v2 : String) (hof : fs0.openFaults = [])
    (h1 : fs0.files.lookup DEPLOYER_PK_FILE = some v1)
    (h2 : fs0.files.lookup OTHER_PK_FILE = some v2) :
    (generate_accounts a1 a2 fs0).log =
      [.out "Deployer key exists. Not overwriting",
       .out "Other key exists. Not overwriting"] ∧
    (generate_accounts a1 a2 fs0).fs.files = fs0.files := by
  obtain ⟨hqf, hqh, hqn, hqo, hqw⟩ := mkdirQuiet_spec fs0
  have hof1 : (mkdirQuiet fs0).openFaults = [] := by rw [hqo]; exact hof
  have hx1 : ((mkdirQuiet fs0).files.lookup DEPLOYER_PK_FILE).isSome = true := by
    rw [hqf, h1]; rfl
  have hx2 : ((mkdirQuiet fs0).files.lookup OTHER_PK_FILE).isSome = true := by
    rw [hqf, h2]; rfl
  simp only [generate_accounts]
  rw [roleBlock_exists DEPLOYER_PK_FILE _ _ a1 (mkdirQuiet fs0) [] hof1 hx1]
  rw [roleBlock_exists OTHER_PK_FILE _ _ a2 (mkdirQuiet fs0) _ hof1 hx2]
  exact ⟨by simp, hqf⟩

theorem generate_accounts_idempotent_witness :
    (generate_accounts accA accB fsBoth).log =
      [.out "Deployer key exists. Not overwriting",
       .out "Other key exists. Not overwriting"] ∧
    (generate_accounts accA accB fsBoth).fs.files = fsBoth.files :=
  generate_accounts_idempotent accA accB fsBoth "0xkey1" "0xkey2" rfl
    (by decide) (by decide)

/-- C7: on every exit path of each role's creation attempt, any opened
credential-file handle is released: the handle table after
`generate_accounts` equals the handle table before, and the task's `file`
variable ends up null. -/
theorem generate_accounts_releases_handles (a1 a2 : Account) (fs0 : FS)
    (hwf : fs0.wfb = true) :
    (generate_accounts a1 a2 fs0).fs.handles = fs0.handles ∧
    (generate_accounts a1 a2 fs0).file = none := by
  obtain ⟨hqf, hqh, hqn, hqo, hqw⟩ := mkdirQuiet_spec fs0
  have hwf1 : (mkdirQuiet fs0).wfb = true := by
    unfold FS.wfb at hwf ⊢
    rw [hqh, hqn]
    exact hwf
  simp only [generate_accounts]
  obtain ⟨he1, hf1, hw1⟩ := roleBlock_handles DEPLOYER_PK_FILE
    "Deployer key exists. Not overwriting" "Deployer account: " a1
    { fs := mkdirQuiet fs0, log := [], file := none } rfl hwf1
  obtain ⟨he2, hf2, hw2⟩ := roleBlock_handles OTHER_PK_FILE
    "Other key exists. Not overwriting" "Other account  : " a2 _ hf1 hw1
  exact ⟨by rw [he2, he1, hqh], hf2⟩

theorem generate_accounts_releases_handles_witness :
    (generate_accounts accA accB emptyFS).fs.handles = emptyFS.handles ∧
    (generate_accounts accA accB emptyFS).file = none :=
  generate_accounts_releases_handles accA accB emptyFS rfl

/-- C9 fails on the code: when `mkdirSync(".config")` fails for a reason
other than already-exists (here a permission error), the error is silently
swallowed by the empty catch clause — the log contains only the two
`ENOENT` reports of the subsequent open calls, and the mkdir error message
appears nowhere in it. -/
theorem mkdir_failure_silently_swallowed_cex :
    (generate_accounts accA accB fsMkdirDenied).log =
      [.err .ENOENT, .err .ENOENT] ∧
    LogLine.err (.other "EACCES: permission denied, mkdir .config") ∉
      (generate_accounts accA accB fsMkdirDenied).log := by
  decide

/-- C9 amended: when creating the configuration directory fails for any
reason, the error is silently discarded (nothing is logged for it), and the
two key-creation steps are still attempted — the run is exactly the two
role blocks applied to the post-mkdir state with an empty log. -/
theorem mkdir_failure_swallowed_steps_continue (fs0 : FS) (a1 a2 : Account)
    (m : String) (rest : List String) (hm : fs0.mkdirFaults = m :: rest) :
    generate_accounts a1 a2 fs0 =
      roleBlock OTHER_PK_FILE "Other key exists. Not overwriting"
        "Other account  : " a2
        (roleBlock DEPLOYER_PK_FILE "Deployer key exists. Not overwriting"
          "Deployer account: " a1
          { fs := { fs0 with mkdirFaults := rest }, log := [], file := none }) := by
  unfold generate_accounts mkdirQuiet FS.mkdirSync
  rw [hm]

theorem mkdir_failure_swallowed_steps_continue_witness :
    generate_accounts accA accB fsMkdirDenied =
      roleBlock OTHER_PK_FILE "Other key exists. Not overwriting"
        "Other account  : " accB
        (roleBlock DEPLOYER_PK_FILE "Deployer key exists. Not overwriting"
          "Deployer account: " accA
          { fs := { fsMkdirDenied with mkdirFaults := [] }, log := [],
            file := none }) :=
  mkdir_failure_swallowed_steps_continue fsMkdirDenied accA accB
    "EACCES: permission denied, mkdir .config" [] rfl

/-! ### Claims about the `node`, credential-loading and executor code -/

/-- C5: fork resolution.  When the fork-source identifier names a
configured profile, exactly that profile's endpoint is substituted as the
fork source, no-reset/no-persistent-write mode is forced, the fork
environment variable is set, and a declared chain identifier is copied onto
the `hardhat` and `localhost` profiles (the table is otherwise untouched);
when it names no profile — or no fork is requested — the invocation and
network configuration are unchanged. -/
theorem nodeTask_fork_resolution (args : NodeArgs)
    (nets : List (String × NetworkCfg)) (env0 : Option String) :
    (∀ f cfg, args.fork = some f → nets.lookup f = some cfg →
      (nodeTask args nets env0).args =
        { fork := cfg.url, noReset := true, write := false } ∧
      (nodeTask args nets env0).deployForkEnv = some f ∧
      (∀ cid, cfg.chainId = some cid →
        (nodeTask args nets env0).nets =
          setChainId (setChainId nets "hardhat" cid) "localhost" cid) ∧
      (cfg.chainId = none → (nodeTask args nets env0).nets = nets)) ∧
    (∀ f, args.fork = some f → nets.lookup f = none →
      nodeTask args nets env0 =
        { args := args, nets := nets, deployForkEnv := env0, log := [] }) ∧
    (args.fork = none →
      nodeTask args nets env0 =
        { args := args, nets := nets, deployForkEnv := env0, log := [] }) := by
  refine ⟨?_, ?_, ?_⟩
  · intro f cfg hf hcfg
    refine ⟨?_, ?_, ?_, ?_⟩
    · simp [nodeTask, hf, hcfg]
    · simp [nodeTask, hf, hcfg]
    · intro cid hcid
      simp [nodeTask, hf, hcfg, hcid]
    · intro hcid
      simp [nodeTask, hf, hcfg, hcid]
  · intro f hf hcfg
    simp [nodeTask, hf, hcfg]
  · intro hf
    simp [nodeTask, hf]

theorem nodeTask_fork_resolution_witness :
    (nodeTask { fork := some "bsc", noReset := false, write := true }
        configNetworks none).args =
      { fork := some "https://bsc-dataseed.binance.org/", noReset := true,
        write := false } ∧
    (nodeTask { fork := some "bsc", noReset := false, write := true }
        configNetworks none).nets =
      setChainId (setChainId configNetworks "hardhat" 56) "localhost" 56 := by
  obtain ⟨h1, h2, h3, h4⟩ := (nodeTask_fork_resolution
    { fork := some "bsc", noReset := false, write := true }
    configNetworks none).1 "bsc"
    { url := some "https://bsc-dataseed.binance.org/", chainId := some 56 }
    rfl (by decide)
  exact ⟨h1, h3 56 rfl⟩

/-- C6: deployer-credential loading.  A non-empty environment override
takes precedence and the persisted file is not consulted (the result is the
override for every file-system state, with no console output); when neither
the override nor the file exists, loading returns no identity and reports
the actionable missing-credential message instead of crashing. -/
theorem deployer_credential_loading :
    (∀ (pk : String) (fs : FS), pk ≠ "" →
      loadDeployerAccount (some pk) fs = (some [pk], [])) ∧
    (∀ fs : FS, fs.readFaults = [] →
      fs.files.lookup DEPLOYER_PK_FILE = none →
      loadDeployerAccount none fs = (none, [.out missingDeployerMsg])) := by
  constructor
  · intro pk fs hpk
    simp [loadDeployerAccount, hpk]
  · intro fs hrf hnf
    simp [loadDeployerAccount, FS.readFileSync, hrf, hnf]

theorem deployer_credential_loading_witness :
    loadDeployerAccount (some "0xsecret") emptyFS = (some ["0xsecret"], []) ∧
    loadDeployerAccount none emptyFS = (none, [.out missingDeployerMsg]) :=
  ⟨deployer_credential_loading.1 "0xsecret" emptyFS (by decide),
   deployer_credential_loading.2 emptyFS rfl rfl⟩

/-- C4: the operation executor shared by `panic`/`unpause`/`harvest` never
logs a success line unless the submission returned a transaction (and the
confirmation wait completed), and on a submission or confirmation failure
it logs a failure line carrying the underlying error text and finishes
cleanly (no unhandled rejection). -/
theorem operation_executor_reports (env : OpEnv) :
    (∀ u, OpLine.success u ∈ (opTask env).2 →
      ∃ tx, env.submit = .ok tx ∧ env.wait = .ok () ∧ u = txUrl tx.hash) ∧
    (∀ e, env.getContract = .ok () → env.submit = .error e →
      opTask env = (.ok (), [.failure e]) ∧
      panicTask env = (.ok (), ["Couldn't panic due to " ++ e])) ∧
    (∀ tx e, env.getContract = .ok () → env.submit = .ok tx →
      env.wait = .error e → opTask env = (.ok (), [.failure e])) := by
  refine ⟨?_, ?_, ?_⟩
  · intro u hu
    unfold opTask at hu
    rcases hg : env.getContract with e | g <;> rw [hg] at hu
    · simp at hu
    · rcases hs : env.submit with e | tx <;> rw [hs] at hu
      · simp at hu
      · rcases hw : env.wait with e | w <;> rw [hw] at hu
        · simp at hu
        · simp at hu
          cases w
          exact ⟨tx, rfl, rfl, hu⟩
  · intro e hg hs
    constructor
    · simp [opTask, hg, hs]
    · simp [panicTask, opTask, hg, hs, panicLine]
  · intro tx e hg hs hw
    simp [opTask, hg, hs, hw]

theorem operation_executor_reports_witness :
    opTask opEnvRevert =
      (.ok (), [.failure "execution reverted: Pausable: paused"]) ∧
    panicTask opEnvRevert =
      (.ok (),
        ["Couldn't panic due to " ++ "execution reverted: Pausable: paused"]) :=
  (operation_executor_reports opEnvRevert).2.1
    "execution reverted: Pausable: paused" rfl rfl

/-- C10: the success report always embeds the transaction hash in a BSC
explorer URL, and the executor's behaviour does not depend on the active
network carried by the environment. -/
theorem explorer_url_always_bscscan (env : OpEnv) (tx : Tx)
    (hg : env.getContract = .ok ()) (hs : env.submit = .ok tx)
    (hw : env.wait = .ok ()) :
    (opTask env).2 = [.success ("https://bscscan.com/tx/" ++ tx.hash)] ∧
    (∀ n : String, opTask { env with network := n } = opTask env) ∧
    (panicTask env).2 =
      ["Successful panic with tx at " ++ ("https://bscscan.com/tx/" ++ tx.hash)] ∧
    (unpauseTask env).2 =
      ["Successful unpaused with tx at " ++
        ("https://bscscan.com/tx/" ++ tx.hash)] ∧
    (harvestTask env).2 =
      ["Successful harvest with tx at " ++
        ("https://bscscan.com/tx/" ++ tx.hash)] := by
  refine ⟨?_, ?_, ?_, ?_, ?_⟩ <;>
    simp [opTask, panicTask, unpauseTask, harvestTask, txUrl, hg, hs, hw,
      panicLine, unpauseLine, harvestLine]

theorem explorer_url_always_bscscan_witness :
    (opTask opEnvPolygonOk).2 =
      [.success ("https://bscscan.com/tx/" ++ "0xabc")] :=
  (explorer_url_always_bscscan opEnvPolygonOk { hash := "0xabc" }
    rfl rfl rfl).1

/-! ### Claims about the `transfer` workflow -/

/-- C8: for every vault name, when both names resolve and both submissions
and confirmations succeed, `transfer` resolves exactly `v ++ "-vault"` and
`v ++ "-strat"`, submits one ownership transfer for each to the vault-owner
and strategy-owner beneficiaries signed by the deployer, and writes each
transaction reference before the final "done" acknowledgment. -/
theorem transfer_success_trace (env : TransferEnv) (v a1 a2 : String)
    (t1 t2 : Tx)
    (h1 : env.deployments.lookup (v ++ "-vault") = some a1)
    (h2 : env.deployments.lookup (v ++ "-strat") = some a2)
    (h3 : env.submit a1 env.vaultOwner env.deployer = .ok t1)
    (h4 : env.wait t1.hash = .ok ())
    (h5 : env.submit a2 env.stratOwner env.deployer = .ok t2)
    (h6 : env.wait t2.hash = .ok ()) :
    transferTask env v = (.ok (),
      [.resolve (v ++ "-vault"),
       .outWrite ("Transfering ownership of \"" ++ (v ++ "-vault")
         ++ "\" at \"" ++ a1 ++ "\" to \"" ++ env.vaultOwner ++ "\""),
       .submitTx a1 env.vaultOwner env.deployer t1.hash,
       .outWrite (" (tx: " ++ t1.hash ++ ")\n"),
       .resolve (v ++ "-strat"),
       .outWrite ("Transfering ownership of \"" ++ (v ++ "-strat")
         ++ "\" at \"" ++ a2 ++ "\" to \"" ++ env.stratOwner ++ "\""),
       .submitTx a2 env.stratOwner env.deployer t2.hash,
       .outWrite (" (tx: " ++ t2.hash ++ ")\n"),
       .outWrite "done"]) := by
  simp [transferTask, transferStep, h1, h2, h3, h4, h5, h6]

theorem transfer_success_trace_witness :
    transferTask envTransferOk "moo" = (.ok (),
      [.resolve ("moo" ++ "-vault"),
       .outWrite ("Transfering ownership of \"" ++ ("moo" ++ "-vault")
         ++ "\" at \"" ++ "0xV" ++ "\" to \"" ++ envTransferOk.vaultOwner
         ++ "\""),
       .submitTx "0xV" envTransferOk.vaultOwner envTransferOk.deployer
         ("0xtx" ++ "0xV"),
       .outWrite (" (tx: " ++ ("0xtx" ++ "0xV") ++ ")\n"),
       .resolve ("moo" ++ "-strat"),
       .outWrite ("Transfering ownership of \"" ++ ("moo" ++ "-strat")
         ++ "\" at \"" ++ "0xS" ++ "\" to \"" ++ envTransferOk.stratOwner
         ++ "\""),
       .submitTx "0xS" envTransferOk.stratOwner envTransferOk.deployer
         ("0xtx" ++ "0xS"),
       .outWrite (" (tx: " ++ ("0xtx" ++ "0xS") ++ ")\n"),
       .outWrite "done"]) :=
  transfer_success_trace envTransferOk "moo" "0xV" "0xS"
    { hash := "0xtx" ++ "0xV" } { hash := "0xtx" ++ "0xS" }
    (by decide) (by decide) rfl rfl rfl rfl

/-- C1 fails on the code: with an empty deployment registry the vault step
fails at resolution, the whole task rejects, and no attempt at the strategy
step is made — the trace holds only the vault resolution attempt and no
`foo-strat` resolution occurs. -/
theorem transfer_vault_failure_skips_strategy_cex :
    (transferTask envNoVault "foo").1 =
      .error "No deployment found for: foo-vault" ∧
    (transferTask envNoVault "foo").2 = [.resolve "foo-vault"] ∧
    TEvent.resolve "foo-strat" ∉ (transferTask envNoVault "foo").2 := by
  refine ⟨rfl, by decide, by decide⟩

/-- C1 amended: the strategy step is attempted if and only if the vault
step completes in full (resolution, submission and confirmation); any vault
step failure aborts the workflow before the strategy step. -/
theorem transfer_strategy_attempt_iff_vault_success (env : TransferEnv)
    (v : String) :
    TEvent.resolve (v ++ "-strat") ∈ (transferTask env v).2 ↔
      (transferStep env (v ++ "-vault") env.vaultOwner env.deployer []).1 =
        .ok () := by
  have hne : v ++ "-strat" ≠ v ++ "-vault" := fun h => vault_ne_strat v h.symm
  have hm := transferStep_resolve_mem env (v ++ "-vault") env.vaultOwner
    env.deployer [] (v ++ "-strat")
  have hm2 := transferStep_resolve_mem env (v ++ "-strat") env.stratOwner
    env.deployer
    ((transferStep env (v ++ "-vault") env.vaultOwner env.deployer []).2)
    (v ++ "-strat")
  simp only [transferTask]
  rcases hr : transferStep env (v ++ "-vault") env.vaultOwner env.deployer []
    with ⟨res, log1⟩
  rw [hr] at hm hm2
  cases res with
  | error e =>
    simp only [Prod.snd] at hm
    simp [hm, hne]
  | ok u =>
    dsimp only
    rcases hr2 : transferStep env (v ++ "-strat") env.stratOwner env.deployer
      log1 with ⟨res2, log2⟩
    rw [hr2] at hm2
    simp only [Prod.snd] at hm2
    cases res2 with
    | error e2 => simp [hm2]
    | ok u2 => simp [hm2]

/-- C2 fails on the code for the transfer command: a rejected submission in
the vault step escapes the task as an unhandled rejection rather than being
caught and reported. -/
theorem transfer_failure_propagates_cex :
    (transferTask envSubmitFail "foo").1 =
      .error "insufficient funds for gas" := rfl

/-- C2 amended: in `panic`/`unpause`/`harvest` a failure after contract
resolution is caught at the task boundary (the task finishes cleanly and a
resolution failure is the one that escapes), while in `transfer` a failing
vault step propagates upward unhandled. -/
theorem command_failure_boundaries :
    (∀ env : OpEnv, env.getContract = .ok () → (opTask env).1 = .ok ()) ∧
    (∀ (env : OpEnv) (e : String), env.getContract = .error e →
      (opTask env).1 = .error e) ∧
    (∀ (env : TransferEnv) (v e : String),
      (transferStep env (v ++ "-vault") env.vaultOwner env.deployer []).1 =
        .error e →
      (transferTask env v).1 = .error e) := by
  refine ⟨?_, ?_, ?_⟩
  · intro env hg
    rcases hs : env.submit with e | tx
    · simp [opTask, hg, hs]
    · rcases hw : env.wait with e | u <;> simp [opTask, hg, hs, hw]
  · intro env e hg
    simp [opTask, hg]
  · intro env v e hstep
    simp only [transferTask]
    rcases hr : transferStep env (v ++ "-vault") env.vaultOwner env.deployer []
      with ⟨res, log1⟩
    rw [hr] at hstep
    cases res with
    | error e2 =>
      simp only [Prod.fst] at hstep
      cases hstep
      simp
    | ok u => simp at hstep

theorem command_failure_boundaries_witness :
    (opTask opEnvRevert).1 = .ok () ∧
    (transferTask envNoVault "moo").1 =
      .error "No deployment found for: moo-vault" :=
  ⟨command_failure_boundaries.1 opEnvRevert rfl,
   command_failure_boundaries.2.2 envNoVault "moo"
     "No deployment found for: moo-vault" rfl⟩

end BeefyHardhat
